import Mathlib

/-!
Verification of the ImagineKeys synthesis engine.

This file shallowly embeds the class PianoModel (piano-model.js): its
state (dimensions, material, built flag, master gain, the activeNotes
registry, pending cleanup timers) and its operations (setDimensions,
setMaterial, buildPiano, playNote, stopNote, forceStopNote,
stopAllNotes, and the firing of the setTimeout cleanup callbacks
scheduled by stopNote).

Modelling conventions:
- JS numbers are rationals; wall-clock times (audioContext.currentTime,
  setTimeout delays) are abstracted away, only the order and identity of
  scheduled cleanup timers is kept.
- Web Audio node objects are modelled by fresh natural-number ids; the
  calls made against the audio graph (node creation, connect, gain
  ramps, oscillator start and stop) are recorded in an append-only event
  log, so that claims about which nodes are created, connected and
  started can be stated.
- JS object identity (the === comparison in the backup and emergency
  cleanup timers) is modelled by a fresh id stored in each Voice.
- A possibly-throwing OscillatorNode.stop is modelled by an oracle
  field stopFails: stopping a node in that list throws; the exception is
  swallowed by the try/catch of the source, aborting the remaining stop
  calls of the same try block.
-/

namespace ImagineKeys

/-- Piano body dimensions in centimetres (the this.dimensions object). -/
structure Dimensions where
  length : ℚ
  width : ℚ
  height : ℚ
  deriving DecidableEq, Repr

/-- Attack time (piano-model.js playNote):
max(0.001, 0.1 - (height / 100) * 0.099). -/
def attackTime (d : Dimensions) : ℚ :=
  max (1 / 1000) (1 / 10 - d.height / 100 * (99 / 1000))

/-- Decay time (piano-model.js playNote): 0.05 + (height / 100) * 0.95. -/
def decayTime (d : Dimensions) : ℚ :=
  1 / 20 + d.height / 100 * (19 / 20)

/-- Sustain level (piano-model.js playNote): 0.1 + (width / 200) * 0.8. -/
def sustainLevel (d : Dimensions) : ℚ :=
  1 / 10 + d.width / 200 * (4 / 5)

/-- Release time (piano-model.js playNote): 0.1 + (length / 200) * 0.7. -/
def releaseTime (d : Dimensions) : ℚ :=
  1 / 10 + d.length / 200 * (7 / 10)

/-- Volume factor (piano-model.js setDimensions):
(length * width * height) / (180 * 150 * 40). -/
def volumeFactor (length width height : ℚ) : ℚ :=
  length * width * height / (180 * 150 * 40)

/-- Frequency of a MIDI note (piano-model.js playNote):
440 * 2 ^ ((midiNote - 69) / 12). -/
noncomputable def noteFrequency (midiNote : ℤ) : ℝ :=
  440 * (2 : ℝ) ^ (((midiNote : ℝ) - 69) / 12)

/-- One entry of the activeNotes registry (the object literal stored by
playNote). Node fields hold audio-node ids; oscillator4 and
experimentalGain are null (none) unless the material is the string
"experimental". The field id models JS object identity, used by the ===
checks of the backup and emergency cleanup timers. -/
structure Voice where
  id : Nat
  oscillator : Nat
  oscillator2 : Nat
  oscillator3 : Nat
  oscillator4 : Option Nat
  noteGain : Nat
  filter : Nat
  harmonicGain : Nat
  effectGain : Nat
  experimentalGain : Option Nat
  releaseTime : ℚ
  deriving DecidableEq, Repr

/-- The oscillator nodes a stop pass iterates over, in source order:
oscillator, oscillator2, oscillator3, and oscillator4 when non-null. -/
def Voice.oscillators (v : Voice) : List Nat :=
  [v.oscillator, v.oscillator2, v.oscillator3] ++ v.oscillator4.toList

/-- The three cleanup timers scheduled by stopNote, in increasing-delay
order: primary (releaseTime-based delay), backup (+1 s), emergency
(5 s). -/
inductive TimerKind where
  | primary
  | backup
  | emergency
  deriving DecidableEq, Repr

/-- A pending setTimeout callback scheduled by stopNote. voiceId is the
id of the Voice the closure captured. -/
structure CleanupTimer where
  kind : TimerKind
  midiNote : Nat
  voiceId : Nat
  deriving DecidableEq, Repr

/-- A call made against the Web Audio graph, recorded in program order. -/
inductive AudioEvent where
  | createOsc (node : Nat)
  | createGain (node : Nat)
  | createFilter (node : Nat)
  | setOscType (node : Nat) (kind : String)
  | setFreqMul (node : Nat) (mul : ℚ)
  | setGainValue (node : Nat) (value : ℚ)
  | setFilterType (node : Nat) (kind : String)
  | setFilterParams (node : Nat) (kind : String) (freq q gain : ℚ)
  | connect (src dst : Nat)
  | cancelRamps (node : Nat)
  | rampGain (node : Nat) (target : ℚ)
  | startOsc (node : Nat)
  | stopOsc (node : Nat)
  deriving DecidableEq, Repr

/-- True exactly on oscillator start events. -/
def isStartEvent : AudioEvent → Bool
  | AudioEvent.startOsc _ => true
  | _ => false

/-- The node id of the shared masterGain node created in the
constructor. -/
def masterNode : Nat := 0

/-- The mutable state of one PianoModel instance. -/
structure PianoModel where
  isBuilt : Bool
  dimensions : Dimensions
  material : String
  masterGain : ℚ
  distortion : Option ℚ
  activeNotes : List (Nat × Voice)
  nextId : Nat
  timers : List CleanupTimer
  events : List AudioEvent
  stopFails : List Nat
  deriving DecidableEq, Repr

/-- The constructor: not built, default dimensions 80 x 280 x 40 cm,
material wood, master gain 0.7, empty registry. -/
def PianoModel.init : PianoModel :=
  { isBuilt := false
    dimensions := { length := 80, width := 280, height := 40 }
    material := "wood"
    masterGain := 7 / 10
    distortion := none
    activeNotes := []
    nextId := 1
    timers := []
    events := []
    stopFails := [] }

/-- Registry lookup this.activeNotes[midiNote] (a JS object keyed by the
note number). -/
def getNote (r : List (Nat × Voice)) (midiNote : Nat) : Option Voice :=
  (r.find? (fun e => e.1 = midiNote)).map (fun e => e.2)

/-- Registry deletion: delete this.activeNotes[midiNote]. -/
def removeNote (r : List (Nat × Voice)) (midiNote : Nat) : List (Nat × Voice) :=
  r.filter (fun e => e.1 ≠ midiNote)

/-- Registry assignment: this.activeNotes[midiNote] = v (replaces the
binding when the key is present, appends it otherwise). -/
def putNote (r : List (Nat × Voice)) (midiNote : Nat) (v : Voice) : List (Nat × Voice) :=
  if r.any (fun e => e.1 = midiNote) then
    r.map (fun e => if e.1 = midiNote then (midiNote, v) else e)
  else
    r ++ [(midiNote, v)]

/-- The stop calls of one try block: each oscillator in order, aborted
(exception thrown, then swallowed by the catch) at the first node in the
fails oracle. -/
def tryStops (fails : List Nat) : List Nat → List AudioEvent
  | [] => []
  | n :: ns =>
      if n ∈ fails then [] else AudioEvent.stopOsc n :: tryStops fails ns

/-- The fade-out calls shared by stopNote and forceStopNote: cancel
scheduled ramps and ramp to zero on noteGain, harmonicGain, effectGain,
and experimentalGain when non-null. -/
def fadeEvents (v : Voice) : List AudioEvent :=
  [AudioEvent.cancelRamps v.noteGain, AudioEvent.rampGain v.noteGain 0,
   AudioEvent.cancelRamps v.harmonicGain, AudioEvent.rampGain v.harmonicGain 0,
   AudioEvent.cancelRamps v.effectGain, AudioEvent.rampGain v.effectGain 0] ++
  (match v.experimentalGain with
   | some g => [AudioEvent.cancelRamps g, AudioEvent.rampGain g 0]
   | none => [])

/-- PianoModel.forceStopNote: immediate stop without release phase.
The 5 ms fade and the oscillator stops sit inside try/catch; the finally
block ALWAYS deletes the registry entry. On an absent pitch it returns
at once. -/
def PianoModel.forceStopNote (m : PianoModel) (midiNote : Nat) : PianoModel :=
  match getNote m.activeNotes midiNote with
  | none => m
  | some note =>
      { m with
        activeNotes := removeNote m.activeNotes midiNote
        events := m.events ++ fadeEvents note ++ tryStops m.stopFails note.oscillators }

/-- PianoModel.stopNote: release-phase stop. Ramps every gain stage to
zero over the releaseTime of the voice, stops the oscillators shortly
after (inside try/catch), and schedules three cleanup timers (primary,
backup, emergency) that will later delete the registry entry; the entry
itself is NOT removed synchronously. On an absent pitch it returns at
once. -/
def PianoModel.stopNote (m : PianoModel) (midiNote : Nat) : PianoModel :=
  match getNote m.activeNotes midiNote with
  | none => m
  | some note =>
      { m with
        events := m.events ++ fadeEvents note ++ tryStops m.stopFails note.oscillators
        timers := m.timers ++
          [{ kind := TimerKind.primary, midiNote := midiNote, voiceId := note.id },
           { kind := TimerKind.backup, midiNote := midiNote, voiceId := note.id },
           { kind := TimerKind.emergency, midiNote := midiNote, voiceId := note.id }] }

/-- The body of one cleanup setTimeout callback from stopNote. The
primary callback deletes the entry whenever ANY entry is present for the
pitch; the backup and emergency callbacks delete it only when the
present entry is the very Voice object the closure captured
(this.activeNotes[midiNote] === note). -/
def runTimer (m : PianoModel) (t : CleanupTimer) : PianoModel :=
  match t.kind with
  | TimerKind.primary =>
      if (getNote m.activeNotes t.midiNote).isSome then
        { m with activeNotes := removeNote m.activeNotes t.midiNote }
      else m
  | TimerKind.backup =>
      match getNote m.activeNotes t.midiNote with
      | some v =>
          if v.id = t.voiceId then
            { m with activeNotes := removeNote m.activeNotes t.midiNote }
          else m
      | none => m
  | TimerKind.emergency =>
      match getNote m.activeNotes t.midiNote with
      | some v =>
          if v.id = t.voiceId then
            { m with activeNotes := removeNote m.activeNotes t.midiNote }
          else m
      | none => m

/-- Fire the pending timer at position i of the queue: it is removed
from the queue and its callback body runs. Absent positions are no-ops. -/
def PianoModel.fireTimer (m : PianoModel) (i : Nat) : PianoModel :=
  match m.timers.get? i with
  | none => m
  | some t => runTimer { m with timers := m.timers.eraseIdx i } t

/-- PianoModel.stopAllNotes: takes a snapshot of the registered note
numbers first (Object.keys, to avoid modifying the mapping during
iteration), then force-stops each (immediate = true) or release-stops
each (immediate = false, the JS default). -/
def PianoModel.stopAllNotes (m : PianoModel) (immediate : Bool) : PianoModel :=
  let noteNumbers := m.activeNotes.map Prod.fst
  if immediate then
    noteNumbers.foldl (fun st p => st.forceStopNote p) m
  else
    noteNumbers.foldl (fun st p => st.stopNote p) m

/-- PianoModel.buildPiano: marks the piano built and immediately stops
any active notes without release phase. The console sound description
and the window.showMessage call are reporting only and are not
modelled. -/
def PianoModel.buildPiano (m : PianoModel) : PianoModel :=
  PianoModel.stopAllNotes { m with isBuilt := true } true

/-- PianoModel.setDimensions: stores the three values unchanged (no
validation, no clamping); when the piano is already built it additionally
release-stops all notes, recomputes the master gain as
min(0.7 * volumeFactor, 1.2), inserts or removes the distortion stage
(curve amount volumeFactor * 30) at the 1.2 threshold, and rebuilds. -/
def PianoModel.setDimensions (m : PianoModel) (length width height : ℚ) : PianoModel :=
  let m1 : PianoModel :=
    { m with dimensions := { length := length, width := width, height := height } }
  if m1.isBuilt then
    let m2 := m1.stopAllNotes false
    let vf := volumeFactor length width height
    let m3 : PianoModel := { m2 with masterGain := min (7 / 10 * vf) (6 / 5) }
    let m4 : PianoModel :=
      if 6 / 5 < vf then { m3 with distortion := some (vf * 30) }
      else { m3 with distortion := none }
    m4.buildPiano
  else m1

/-- PianoModel.setMaterial: stores the material string and rebuilds when
already built. -/
def PianoModel.setMaterial (m : PianoModel) (material : String) : PianoModel :=
  let m1 : PianoModel := { m with material := material }
  if m1.isBuilt then m1.buildPiano else m1

/-- The material switch of playNote (oscillator waveforms, harmonic and
effect gain levels, filter configuration as affine functions of length;
the plastic case additionally wires oscillator4 through experimentalGain
into the filter). Material strings outside the four cases match no case
and emit nothing. -/
def materialEvents (material : String) (d : Dimensions)
    (o1 o2 o3 o4 gHarm gEff gExp f : Nat) : List AudioEvent :=
  if material = "wood" then
    [AudioEvent.setOscType o1 "triangle", AudioEvent.setOscType o2 "sine",
     AudioEvent.setOscType o3 "sine",
     AudioEvent.setGainValue gHarm (1 / 4), AudioEvent.setGainValue gEff (2 / 25),
     AudioEvent.setFilterParams f "lowpass" (3500 + d.length * 20) (7 / 10) 0]
  else if material = "metal" then
    [AudioEvent.setOscType o1 "triangle", AudioEvent.setOscType o2 "sawtooth",
     AudioEvent.setOscType o3 "triangle",
     AudioEvent.setGainValue gHarm (3 / 10), AudioEvent.setGainValue gEff (3 / 20),
     AudioEvent.setFilterParams f "highshelf" (2000 + d.length * 30) 1 3]
  else if material = "glass" then
    [AudioEvent.setOscType o1 "sine", AudioEvent.setOscType o2 "sine",
     AudioEvent.setOscType o3 "triangle",
     AudioEvent.setGainValue gHarm (3 / 20), AudioEvent.setGainValue gEff (1 / 10),
     AudioEvent.setFilterParams f "peaking" (4000 + d.length * 40) 4 6]
  else if material = "plastic" then
    [AudioEvent.setOscType o1 "triangle", AudioEvent.setOscType o2 "sine",
     AudioEvent.setOscType o3 "triangle", AudioEvent.setOscType o4 "sine",
     AudioEvent.setFreqMul o2 2,
     AudioEvent.setGainValue gHarm (1 / 5), AudioEvent.setGainValue gEff (1 / 10),
     AudioEvent.setGainValue gExp (1 / 20),
     AudioEvent.setFilterParams f "lowshelf" (1000 + d.length * 20) (4 / 5) (-2),
     AudioEvent.connect o4 gExp, AudioEvent.connect gExp f]
  else []

/-- The audio-graph calls of one playNote voice construction, with node
ids allocated from base in source creation order: oscillator (base),
noteGain (+1), filter (+2), oscillator2 (+3), harmonicGain (+4),
oscillator3 (+5), effectGain (+6), oscillator4 (+7), experimentalGain
(+8). Frequencies are recorded as multiples of the fundamental
noteFrequency: 1, 2, 3, and 1/2 for the sub-oscillator. Oscillators 1-3
are always started; oscillator4 is started only for the material string
"experimental". -/
def voiceBuildEvents (material : String) (d : Dimensions) (velocity : ℚ)
    (base : Nat) : List AudioEvent :=
  [AudioEvent.createOsc base, AudioEvent.createGain (base + 1),
   AudioEvent.createFilter (base + 2),
   AudioEvent.setOscType base "triangle", AudioEvent.setFreqMul base 1,
   AudioEvent.setFilterType (base + 2) "lowpass",
   AudioEvent.createOsc (base + 3), AudioEvent.createGain (base + 4),
   AudioEvent.setFreqMul (base + 3) 2,
   AudioEvent.createOsc (base + 5), AudioEvent.createGain (base + 6),
   AudioEvent.setFreqMul (base + 5) 3,
   AudioEvent.createOsc (base + 7), AudioEvent.createGain (base + 8),
   AudioEvent.setFreqMul (base + 7) (1 / 2)] ++
  materialEvents material d base (base + 3) (base + 5) (base + 7)
    (base + 4) (base + 6) (base + 8) (base + 2) ++
  [AudioEvent.connect (base + 5) (base + 6), AudioEvent.connect (base + 6) (base + 2),
   AudioEvent.connect (base + 3) (base + 4), AudioEvent.connect (base + 4) (base + 2),
   AudioEvent.setGainValue (base + 1) 0,
   AudioEvent.connect base (base + 2), AudioEvent.connect (base + 2) (base + 1),
   AudioEvent.connect (base + 1) masterNode,
   AudioEvent.rampGain (base + 1) 0,
   AudioEvent.rampGain (base + 1) velocity,
   AudioEvent.rampGain (base + 1) (sustainLevel d * velocity),
   AudioEvent.startOsc base, AudioEvent.startOsc (base + 3),
   AudioEvent.startOsc (base + 5)] ++
  (if material = "experimental" then [AudioEvent.startOsc (base + 7)] else [])

/-- The registry entry playNote stores: oscillator4 and experimentalGain
are kept only for the material string "experimental", otherwise null. -/
def mkVoice (material : String) (d : Dimensions) (base : Nat) : Voice :=
  let rt := releaseTime d
  { id := base + 9
    oscillator := base
    oscillator2 := base + 3
    oscillator3 := base + 5
    oscillator4 := if material = "experimental" then some (base + 7) else none
    noteGain := base + 1
    filter := base + 2
    harmonicGain := base + 4
    effectGain := base + 6
    experimentalGain := if material = "experimental" then some (base + 8) else none
    releaseTime := rt }

/-- The first statement of playNote: if an entry exists for the pitch,
force-stop it (which removes it) before anything else. -/
def PianoModel.playNotePhase1 (m : PianoModel) (midiNote : Nat) : PianoModel :=
  if (getNote m.activeNotes midiNote).isSome then m.forceStopNote midiNote else m

/-- PianoModel.playNote: force-stop any existing voice for the pitch,
bail out (reporting only) when the piano is not built, re-check the
registry (dead after phase 1), then create, connect and start the new
voice and register it. The JS default velocity is 0.7. -/
def PianoModel.playNote (m : PianoModel) (midiNote : Nat) (velocity : ℚ) : PianoModel :=
  let m1 := m.playNotePhase1 midiNote
  if m1.isBuilt = false then m1
  else
    let m2 := if (getNote m1.activeNotes midiNote).isSome then m1.stopNote midiNote else m1
    let base := m2.nextId
    let note := mkVoice m2.material m2.dimensions base
    { m2 with
      activeNotes := putNote m2.activeNotes midiNote note
      nextId := base + 10
      events := m2.events ++ voiceBuildEvents m2.material m2.dimensions velocity base }

/-- One control operation of the engine, as callable by the input
adapters and the timer facility. -/
inductive Op where
  | play (midiNote : Nat) (velocity : ℚ)
  | stop (midiNote : Nat)
  | forceStop (midiNote : Nat)
  | stopAll (immediate : Bool)
  | build
  | setDims (length width height : ℚ)
  | setMat (material : String)
  | fire (i : Nat)
  deriving DecidableEq, Repr

/-- Apply one operation. -/
def PianoModel.applyOp (m : PianoModel) : Op → PianoModel
  | Op.play p v => m.playNote p v
  | Op.stop p => m.stopNote p
  | Op.forceStop p => m.forceStopNote p
  | Op.stopAll b => m.stopAllNotes b
  | Op.build => m.buildPiano
  | Op.setDims l w h => m.setDimensions l w h
  | Op.setMat mat => m.setMaterial mat
  | Op.fire i => m.fireTimer i

/-- Run a sequence of operations in call order. -/
def PianoModel.run (m : PianoModel) (ops : List Op) : PianoModel :=
  ops.foldl PianoModel.applyOp m

/-- At most one registry binding per pitch: the note numbers are
pairwise distinct. -/
def keysNodup (r : List (Nat × Voice)) : Prop :=
  (r.map Prod.fst).Nodup

/-- The trace refuting claim C3: build, play pitch 60 (voice id 10),
release-stop it (scheduling its three cleanup timers), play pitch 60
again (voice id 20 now registered). -/
def staleTimerTrace : PianoModel :=
  ((((PianoModel.init).buildPiano).playNote 60 (7 / 10)).stopNote 60).playNote 60 (7 / 10)

/-- The conclusion of claim C10 at one call site: playNote appends
exactly the voiceBuildEvents block; exactly the three oscillators
oscillator (base), oscillator2 (base+3), oscillator3 (base+5) are
started and the sub-oscillator oscillator4 (base+7) is not; oscillator4
is nevertheless created, and for plastic it is connected through
experimentalGain into the filter; the registered Voice stores null for
oscillator4 and experimentalGain. -/
def playNoteStartsThree (m : PianoModel) (midiNote : Nat) (velocity : ℚ) : Prop :=
  (m.playNote midiNote velocity).events =
      m.events ++ voiceBuildEvents m.material m.dimensions velocity m.nextId ∧
  (voiceBuildEvents m.material m.dimensions velocity m.nextId).filter
      (fun e => isStartEvent e) =
    [AudioEvent.startOsc m.nextId, AudioEvent.startOsc (m.nextId + 3),
     AudioEvent.startOsc (m.nextId + 5)] ∧
  AudioEvent.startOsc (m.nextId + 7) ∉
    voiceBuildEvents m.material m.dimensions velocity m.nextId ∧
  AudioEvent.createOsc (m.nextId + 7) ∈
    voiceBuildEvents m.material m.dimensions velocity m.nextId ∧
  (m.material = "plastic" →
    AudioEvent.connect (m.nextId + 7) (m.nextId + 8) ∈
      voiceBuildEvents m.material m.dimensions velocity m.nextId ∧
    AudioEvent.connect (m.nextId + 8) (m.nextId + 2) ∈
      voiceBuildEvents m.material m.dimensions velocity m.nextId) ∧
  getNote (m.playNote midiNote velocity).activeNotes midiNote =
    some (mkVoice m.material m.dimensions m.nextId) ∧
  (mkVoice m.material m.dimensions m.nextId).oscillator4 = none ∧
  (mkVoice m.material m.dimensions m.nextId).experimentalGain = none

section RegistryLemmas

/-- After deleting a pitch, lookup of that pitch fails. -/
theorem getNote_removeNote_self (r : List (Nat × Voice)) (p : Nat) :
    getNote (removeNote r p) p = none := by
  unfold getNote removeNote
  rw [Option.map_eq_none', List.find?_eq_none]
  intro e he
  have := (List.mem_filter.mp he).2
  simpa using this

/-- Deleting an absent pitch leaves the registry unchanged. -/
theorem removeNote_of_getNote_none {r : List (Nat × Voice)} {p : Nat}
    (h : getNote r p = none) : removeNote r p = r := by
  unfold getNote at h
  rw [Option.map_eq_none', List.find?_eq_none] at h
  apply List.filter_eq_self.mpr
  intro e he
  simpa using h e he

/-- Deletion preserves distinctness of the note numbers. -/
theorem keysNodup_removeNote {r : List (Nat × Voice)} (p : Nat)
    (h : keysNodup r) : keysNodup (removeNote r p) :=
  ((List.filter_sublist r).map Prod.fst).nodup h

/-- Assignment preserves distinctness of the note numbers. -/
theorem keysNodup_putNote {r : List (Nat × Voice)} (p : Nat) (v : Voice)
    (h : keysNodup r) : keysNodup (putNote r p v) := by
  unfold putNote
  by_cases hc : r.any (fun e => e.1 = p)
  · rw [if_pos hc]
    have : (r.map (fun e => if e.1 = p then (p, v) else e)).map Prod.fst = r.map Prod.fst := by
      rw [List.map_map]
      apply List.map_congr_left
      intro e _
      by_cases he : e.1 = p
      · simp [he]
      · simp [he]
    unfold keysNodup
    rw [this]
    exact h
  · rw [if_neg hc]
    have hp : p ∉ r.map Prod.fst := by
      intro hmem
      rcases List.mem_map.mp hmem with ⟨e, he, hfst⟩
      exact hc (List.any_eq_true.mpr ⟨e, he, by simp [hfst]⟩)
    unfold keysNodup
    rw [List.map_append]
    simp only [List.map_cons, List.map_nil]
    rw [List.nodup_append]
    exact ⟨h, List.nodup_singleton p, by
      intro a ha hb
      simp only [List.mem_singleton] at hb
      exact hp (hb ▸ ha)⟩

/-- With pairwise-distinct note numbers, at most one binding matches a
pitch. -/
theorem length_filter_le_one {r : List (Nat × Voice)} (p : Nat)
    (h : keysNodup r) : (r.filter (fun e => e.1 = p)).length ≤ 1 := by
  induction r with
  | nil => simp
  | cons e r ih =>
      unfold keysNodup at h
      simp only [List.map_cons, List.nodup_cons] at h
      by_cases he : e.1 = p
      · have hrest : r.filter (fun e => e.1 = p) = [] := by
          apply List.filter_eq_nil_iff.mpr
          intro a ha
          simp only [decide_eq_true_eq]
          intro hap
          exact h.1 (List.mem_map.mpr ⟨a, ha, by rw [hap, he]⟩)
        simp [List.filter_cons, he, hrest]
      · simp only [List.filter_cons, he]
        simpa using ih h.2

end RegistryLemmas

section OperationLemmas

/-- The registry after forceStopNote is exactly the old registry with
the pitch deleted (in every state, also when the oscillator stops
throw). -/
theorem forceStopNote_activeNotes (m : PianoModel) (p : Nat) :
    (m.forceStopNote p).activeNotes = removeNote m.activeNotes p := by
  unfold PianoModel.forceStopNote
  cases hg : getNote m.activeNotes p with
  | none => simp [removeNote_of_getNote_none hg]
  | some v => simp

/-- stopNote never removes the registry entry synchronously. -/
theorem stopNote_activeNotes (m : PianoModel) (p : Nat) :
    (m.stopNote p).activeNotes = m.activeNotes := by
  unfold PianoModel.stopNote
  cases hg : getNote m.activeNotes p with
  | none => rfl
  | some v => rfl

/-- forceStopNote does not change the built flag. -/
theorem forceStopNote_isBuilt (m : PianoModel) (p : Nat) :
    (m.forceStopNote p).isBuilt = m.isBuilt := by
  unfold PianoModel.forceStopNote
  cases getNote m.activeNotes p <;> rfl

/-- stopNote does not change the built flag. -/
theorem stopNote_isBuilt (m : PianoModel) (p : Nat) :
    (m.stopNote p).isBuilt = m.isBuilt := by
  unfold PianoModel.stopNote
  cases getNote m.activeNotes p <;> rfl

/-- forceStopNote does not change the dimensions. -/
theorem forceStopNote_dimensions (m : PianoModel) (p : Nat) :
    (m.forceStopNote p).dimensions = m.dimensions := by
  unfold PianoModel.forceStopNote
  cases getNote m.activeNotes p <;> rfl

/-- stopNote does not change the dimensions. -/
theorem stopNote_dimensions (m : PianoModel) (p : Nat) :
    (m.stopNote p).dimensions = m.dimensions := by
  unfold PianoModel.stopNote
  cases getNote m.activeNotes p <;> rfl

/-- forceStopNote does not change the master gain. -/
theorem forceStopNote_masterGain (m : PianoModel) (p : Nat) :
    (m.forceStopNote p).masterGain = m.masterGain := by
  unfold PianoModel.forceStopNote
  cases getNote m.activeNotes p <;> rfl

/-- stopNote does not change the master gain. -/
theorem stopNote_masterGain (m : PianoModel) (p : Nat) :
    (m.stopNote p).masterGain = m.masterGain := by
  unfold PianoModel.stopNote
  cases getNote m.activeNotes p <;> rfl

/-- A per-state quantity unchanged by each fold step is unchanged by the
whole fold. -/
theorem foldl_preserve {α : Type} (f : PianoModel → α)
    (g : PianoModel → Nat → PianoModel)
    (h : ∀ st p, f (g st p) = f st) :
    ∀ (ks : List Nat) (m : PianoModel), f (ks.foldl g m) = f m := by
  intro ks
  induction ks with
  | nil => intro m; rfl
  | cons k ks ih => intro m; rw [List.foldl_cons, ih, h]

/-- A state predicate preserved by each fold step is preserved by the
whole fold. -/
theorem foldl_preserveP (P : PianoModel → Prop)
    (g : PianoModel → Nat → PianoModel)
    (h : ∀ st p, P st → P (g st p)) :
    ∀ (ks : List Nat) (m : PianoModel), P m → P (ks.foldl g m) := by
  intro ks
  induction ks with
  | nil => intro m hm; exact hm
  | cons k ks ih => intro m hm; exact ih _ (h m k hm)

/-- stopAllNotes does not change the built flag. -/
theorem stopAllNotes_isBuilt (m : PianoModel) (b : Bool) :
    (m.stopAllNotes b).isBuilt = m.isBuilt := by
  unfold PianoModel.stopAllNotes
  cases b
  · exact foldl_preserve (fun st => st.isBuilt) _ stopNote_isBuilt _ m
  · exact foldl_preserve (fun st => st.isBuilt) _ forceStopNote_isBuilt _ m

/-- stopAllNotes does not change the dimensions. -/
theorem stopAllNotes_dimensions (m : PianoModel) (b : Bool) :
    (m.stopAllNotes b).dimensions = m.dimensions := by
  unfold PianoModel.stopAllNotes
  cases b
  · exact foldl_preserve (fun st => st.dimensions) _ stopNote_dimensions _ m
  · exact foldl_preserve (fun st => st.dimensions) _ forceStopNote_dimensions _ m

/-- stopAllNotes does not change the master gain. -/
theorem stopAllNotes_masterGain (m : PianoModel) (b : Bool) :
    (m.stopAllNotes b).masterGain = m.masterGain := by
  unfold PianoModel.stopAllNotes
  cases b
  · exact foldl_preserve (fun st => st.masterGain) _ stopNote_masterGain _ m
  · exact foldl_preserve (fun st => st.masterGain) _ forceStopNote_masterGain _ m

/-- Release-phase stopAllNotes leaves the registry itself unchanged
(cleanup is deferred to the timers). -/
theorem stopAllNotes_false_activeNotes (m : PianoModel) :
    (m.stopAllNotes false).activeNotes = m.activeNotes := by
  unfold PianoModel.stopAllNotes
  exact foldl_preserve (fun st => st.activeNotes) _ stopNote_activeNotes _ m

/-- Force-stopping every pitch of a snapshot that covers the registry
empties the registry. -/
theorem foldl_forceStop_empty :
    ∀ (ks : List Nat) (m : PianoModel),
      (∀ e ∈ m.activeNotes, e.1 ∈ ks) →
      (ks.foldl (fun st p => st.forceStopNote p) m).activeNotes = [] := by
  intro ks
  induction ks with
  | nil =>
      intro m hm
      exact List.eq_nil_iff_forall_not_mem.mpr (fun e he => by simpa using hm e he)
  | cons k ks ih =>
      intro m hm
      rw [List.foldl_cons]
      apply ih
      intro e he
      rw [forceStopNote_activeNotes] at he
      have h1 := List.mem_filter.mp he
      have h2 := hm e h1.1
      simp only [List.mem_cons] at h2
      rcases h2 with h2 | h2
      · exact absurd h2 (by simpa using h1.2)
      · exact h2

/-- Immediate stopAllNotes empties the registry. -/
theorem stopAllNotes_true_activeNotes (m : PianoModel) :
    (m.stopAllNotes true).activeNotes = [] := by
  unfold PianoModel.stopAllNotes
  exact foldl_forceStop_empty _ m (fun e he => List.mem_map.mpr ⟨e, he, rfl⟩)

/-- buildPiano empties the registry. -/
theorem buildPiano_activeNotes (m : PianoModel) :
    (m.buildPiano).activeNotes = [] := by
  unfold PianoModel.buildPiano
  exact stopAllNotes_true_activeNotes _

/-- buildPiano sets the built flag. -/
theorem buildPiano_isBuilt (m : PianoModel) :
    (m.buildPiano).isBuilt = true := by
  unfold PianoModel.buildPiano
  rw [stopAllNotes_isBuilt]

/-- buildPiano does not change the dimensions. -/
theorem buildPiano_dimensions (m : PianoModel) :
    (m.buildPiano).dimensions = m.dimensions := by
  unfold PianoModel.buildPiano
  rw [stopAllNotes_dimensions]

/-- buildPiano does not change the master gain. -/
theorem buildPiano_masterGain (m : PianoModel) :
    (m.buildPiano).masterGain = m.masterGain := by
  unfold PianoModel.buildPiano
  rw [stopAllNotes_masterGain]

end OperationLemmas

section PhaseLemmas

/-- forceStopNote does not change the id counter. -/
theorem forceStopNote_nextId (m : PianoModel) (p : Nat) :
    (m.forceStopNote p).nextId = m.nextId := by
  unfold PianoModel.forceStopNote
  cases getNote m.activeNotes p <;> rfl

/-- forceStopNote does not change the material. -/
theorem forceStopNote_material (m : PianoModel) (p : Nat) :
    (m.forceStopNote p).material = m.material := by
  unfold PianoModel.forceStopNote
  cases getNote m.activeNotes p <;> rfl

/-- forceStopNote does not change the event log prefix oracle. -/
theorem forceStopNote_stopFails (m : PianoModel) (p : Nat) :
    (m.forceStopNote p).stopFails = m.stopFails := by
  unfold PianoModel.forceStopNote
  cases getNote m.activeNotes p <;> rfl

/-- forceStopNote on an absent pitch is a no-op. -/
theorem forceStopNote_of_none {m : PianoModel} {p : Nat}
    (h : getNote m.activeNotes p = none) : m.forceStopNote p = m := by
  unfold PianoModel.forceStopNote
  rw [h]

/-- stopNote on an absent pitch is a no-op. -/
theorem stopNote_of_none {m : PianoModel} {p : Nat}
    (h : getNote m.activeNotes p = none) : m.stopNote p = m := by
  unfold PianoModel.stopNote
  rw [h]

/-- The first phase of playNote deletes the pitch from the registry (it
does nothing exactly when the pitch is absent). -/
theorem playNotePhase1_activeNotes (m : PianoModel) (p : Nat) :
    (m.playNotePhase1 p).activeNotes = removeNote m.activeNotes p := by
  unfold PianoModel.playNotePhase1
  cases hg : getNote m.activeNotes p with
  | none => simp [removeNote_of_getNote_none hg]
  | some v => simp [forceStopNote_activeNotes]

/-- After the first phase of playNote, no entry for the pitch remains:
the previous voice is gone before the new one is created. -/
theorem getNote_playNotePhase1 (m : PianoModel) (p : Nat) :
    getNote (m.playNotePhase1 p).activeNotes p = none := by
  rw [playNotePhase1_activeNotes]
  exact getNote_removeNote_self _ _

/-- Phase one does not change the built flag. -/
theorem playNotePhase1_isBuilt (m : PianoModel) (p : Nat) :
    (m.playNotePhase1 p).isBuilt = m.isBuilt := by
  unfold PianoModel.playNotePhase1
  split
  · exact forceStopNote_isBuilt m p
  · rfl

/-- Phase one does not change the dimensions. -/
theorem playNotePhase1_dimensions (m : PianoModel) (p : Nat) :
    (m.playNotePhase1 p).dimensions = m.dimensions := by
  unfold PianoModel.playNotePhase1
  split
  · exact forceStopNote_dimensions m p
  · rfl

/-- Phase one does not change the material. -/
theorem playNotePhase1_material (m : PianoModel) (p : Nat) :
    (m.playNotePhase1 p).material = m.material := by
  unfold PianoModel.playNotePhase1
  split
  · exact forceStopNote_material m p
  · rfl

/-- Phase one does not change the id counter. -/
theorem playNotePhase1_nextId (m : PianoModel) (p : Nat) :
    (m.playNotePhase1 p).nextId = m.nextId := by
  unfold PianoModel.playNotePhase1
  split
  · exact forceStopNote_nextId m p
  · rfl

/-- playNote does not change the built flag. -/
theorem playNote_isBuilt (m : PianoModel) (p : Nat) (v : ℚ) :
    (m.playNote p v).isBuilt = m.isBuilt := by
  simp only [PianoModel.playNote]
  split
  · exact playNotePhase1_isBuilt m p
  · split <;> simp [stopNote_isBuilt, playNotePhase1_isBuilt]

/-- On a built piano, playNote deletes any previous entry for the pitch
and registers the freshly built voice under it. -/
theorem playNote_activeNotes_built (m : PianoModel) (p : Nat) (v : ℚ)
    (h : m.isBuilt = true) :
    (m.playNote p v).activeNotes =
      putNote (removeNote m.activeNotes p) p
        (mkVoice m.material m.dimensions m.nextId) := by
  simp only [PianoModel.playNote]
  rw [if_neg (by rw [playNotePhase1_isBuilt, h]; simp)]
  rw [if_neg (by rw [getNote_playNotePhase1]; simp)]
  simp only [playNotePhase1_activeNotes, playNotePhase1_material,
    playNotePhase1_dimensions, playNotePhase1_nextId]

/-- On a piano that is not built, playNote performs only its first
phase. -/
theorem playNote_not_built (m : PianoModel) (p : Nat) (v : ℚ)
    (h : m.isBuilt = false) :
    m.playNote p v = m.playNotePhase1 p := by
  simp only [PianoModel.playNote]
  rw [if_pos (by rw [playNotePhase1_isBuilt, h])]

/-- The registry after playNote, in every state. -/
theorem playNote_activeNotes (m : PianoModel) (p : Nat) (v : ℚ) :
    (m.playNote p v).activeNotes =
      if m.isBuilt then
        putNote (removeNote m.activeNotes p) p
          (mkVoice m.material m.dimensions m.nextId)
      else removeNote m.activeNotes p := by
  cases h : m.isBuilt with
  | true => rw [if_pos rfl, playNote_activeNotes_built m p v h]
  | false =>
      rw [if_neg (by simp), playNote_not_built m p v h, playNotePhase1_activeNotes]

/-- A timer callback either leaves the registry alone or deletes its
pitch. -/
theorem runTimer_activeNotes (m : PianoModel) (t : CleanupTimer) :
    (runTimer m t).activeNotes = m.activeNotes ∨
    (runTimer m t).activeNotes = removeNote m.activeNotes t.midiNote := by
  unfold runTimer
  cases t.kind with
  | primary =>
      dsimp only
      split
      · right; rfl
      · left; rfl
  | backup =>
      dsimp only
      cases getNote m.activeNotes t.midiNote with
      | none => left; rfl
      | some v =>
          dsimp only
          split
          · right; rfl
          · left; rfl
  | emergency =>
      dsimp only
      cases getNote m.activeNotes t.midiNote with
      | none => left; rfl
      | some v =>
          dsimp only
          split
          · right; rfl
          · left; rfl

/-- A timer callback does not change the built flag. -/
theorem runTimer_isBuilt (m : PianoModel) (t : CleanupTimer) :
    (runTimer m t).isBuilt = m.isBuilt := by
  unfold runTimer
  cases t.kind with
  | primary => dsimp only; split <;> rfl
  | backup =>
      dsimp only
      cases getNote m.activeNotes t.midiNote with
      | none => rfl
      | some v => dsimp only; split <;> rfl
  | emergency =>
      dsimp only
      cases getNote m.activeNotes t.midiNote with
      | none => rfl
      | some v => dsimp only; split <;> rfl

/-- Firing a timer either leaves the registry alone or deletes the
pitch of the fired timer. -/
theorem fireTimer_activeNotes (m : PianoModel) (i : Nat) :
    (m.fireTimer i).activeNotes = m.activeNotes ∨
    ∃ p, (m.fireTimer i).activeNotes = removeNote m.activeNotes p := by
  unfold PianoModel.fireTimer
  cases m.timers.get? i with
  | none => left; rfl
  | some t =>
      rcases runTimer_activeNotes { m with timers := m.timers.eraseIdx i } t with h | h
      · left; exact h
      · right; exact ⟨t.midiNote, h⟩

/-- Firing a timer does not change the built flag. -/
theorem fireTimer_isBuilt (m : PianoModel) (i : Nat) :
    (m.fireTimer i).isBuilt = m.isBuilt := by
  unfold PianoModel.fireTimer
  cases m.timers.get? i with
  | none => rfl
  | some t => exact runTimer_isBuilt _ t

/-- The registry after setDimensions: emptied by the rebuild when the
piano was built, untouched otherwise. -/
theorem setDimensions_activeNotes (m : PianoModel) (l w h : ℚ) :
    (m.setDimensions l w h).activeNotes =
      if m.isBuilt then [] else m.activeNotes := by
  unfold PianoModel.setDimensions
  cases hb : m.isBuilt with
  | true => simp only [hb, if_true, buildPiano_activeNotes]
  | false => simp [hb]

/-- setDimensions does not change the built flag. -/
theorem setDimensions_isBuilt (m : PianoModel) (l w h : ℚ) :
    (m.setDimensions l w h).isBuilt = m.isBuilt := by
  unfold PianoModel.setDimensions
  cases hb : m.isBuilt with
  | true => simp only [hb, if_true, buildPiano_isBuilt]
  | false => simp [hb]

/-- The registry after setMaterial: emptied by the rebuild when the
piano was built, untouched otherwise. -/
theorem setMaterial_activeNotes (m : PianoModel) (mat : String) :
    (m.setMaterial mat).activeNotes =
      if m.isBuilt then [] else m.activeNotes := by
  unfold PianoModel.setMaterial
  cases hb : m.isBuilt with
  | true => simp only [hb, if_true, buildPiano_activeNotes]
  | false => simp [hb]

/-- setMaterial does not change the built flag. -/
theorem setMaterial_isBuilt (m : PianoModel) (mat : String) :
    (m.setMaterial mat).isBuilt = m.isBuilt := by
  unfold PianoModel.setMaterial
  cases hb : m.isBuilt with
  | true => simp only [hb, if_true, buildPiano_isBuilt]
  | false => simp [hb]

end PhaseLemmas

section InvariantLemmas

/-- Every operation preserves distinctness of the registered note
numbers. -/
theorem keysNodup_applyOp (m : PianoModel) (o : Op)
    (h : keysNodup m.activeNotes) : keysNodup (m.applyOp o).activeNotes := by
  cases o with
  | play p v =>
      show keysNodup (m.playNote p v).activeNotes
      rw [playNote_activeNotes]
      split
      · exact keysNodup_putNote _ _ (keysNodup_removeNote _ h)
      · exact keysNodup_removeNote _ h
  | stop p =>
      show keysNodup (m.stopNote p).activeNotes
      rw [stopNote_activeNotes]; exact h
  | forceStop p =>
      show keysNodup (m.forceStopNote p).activeNotes
      rw [forceStopNote_activeNotes]; exact keysNodup_removeNote _ h
  | stopAll b =>
      show keysNodup (m.stopAllNotes b).activeNotes
      unfold PianoModel.stopAllNotes
      cases b
      · refine foldl_preserveP (fun st => keysNodup st.activeNotes) _ ?_ _ m h
        intro st p hst
        rw [stopNote_activeNotes]; exact hst
      · refine foldl_preserveP (fun st => keysNodup st.activeNotes) _ ?_ _ m h
        intro st p hst
        rw [forceStopNote_activeNotes]; exact keysNodup_removeNote _ hst
  | build =>
      show keysNodup (m.buildPiano).activeNotes
      rw [buildPiano_activeNotes]; exact List.nodup_nil
  | setDims l w hh =>
      show keysNodup (m.setDimensions l w hh).activeNotes
      rw [setDimensions_activeNotes]
      split
      · exact List.nodup_nil
      · exact h
  | setMat mat =>
      show keysNodup (m.setMaterial mat).activeNotes
      rw [setMaterial_activeNotes]
      split
      · exact List.nodup_nil
      · exact h
  | fire i =>
      show keysNodup (m.fireTimer i).activeNotes
      rcases fireTimer_activeNotes m i with hf | ⟨p, hf⟩
      · rw [hf]; exact h
      · rw [hf]; exact keysNodup_removeNote _ h

/-- Every reachable state has pairwise-distinct registered note
numbers. -/
theorem run_keysNodup (ops : List Op) :
    keysNodup (PianoModel.init.run ops).activeNotes := by
  unfold PianoModel.run
  have : ∀ (l : List Op) (m : PianoModel), keysNodup m.activeNotes →
      keysNodup (l.foldl PianoModel.applyOp m).activeNotes := by
    intro l
    induction l with
    | nil => intro m hm; exact hm
    | cons o l ih =>
        intro m hm
        exact ih _ (keysNodup_applyOp m o hm)
  exact this ops PianoModel.init List.nodup_nil

end InvariantLemmas

/-- C1: along every sequence of engine operations (note on and off,
force stops, mass stops, rebuilds, timer firings) the activeNotes
registry holds at most one entry per pitch; the very first statement of
playNote removes any existing voice for the pitch (by force-stopping
it when one is registered), so in the intermediate state between
retiring the old voice and registering the new one no entry for the
pitch exists: two voices for one pitch never coexist, even transiently. -/
theorem claim_C1_at_most_one_voice_per_pitch :
    (∀ (ops : List Op) (p : Nat),
        (((PianoModel.init.run ops).activeNotes.filter
            (fun e => e.1 = p)).length) ≤ 1) ∧
    (∀ (m : PianoModel) (p : Nat),
        getNote (m.playNotePhase1 p).activeNotes p = none) ∧
    (∀ (m : PianoModel) (p : Nat),
        (getNote m.activeNotes p).isSome = true →
        m.playNotePhase1 p = m.forceStopNote p) := by
  refine ⟨?_, ?_, ?_⟩
  · intro ops p
    exact length_filter_le_one p (run_keysNodup ops)
  · intro m p
    exact getNote_playNotePhase1 m p
  · intro m p h
    unfold PianoModel.playNotePhase1
    rw [if_pos h]

/-- Witness for C1 at a concrete reachable state holding a voice for
pitch 60. -/
theorem claim_C1_witness :
    (getNote ((PianoModel.init.buildPiano).playNote 60 (7 / 10)).activeNotes
        60).isSome = true ∧
    ((PianoModel.init.buildPiano).playNote 60 (7 / 10)).playNotePhase1 60 =
      ((PianoModel.init.buildPiano).playNote 60 (7 / 10)).forceStopNote 60 :=
  ⟨by decide, claim_C1_at_most_one_voice_per_pitch.2.2 _ 60 (by decide)⟩

/-- C2: forceStopNote always removes the registry entry for the pitch —
in every state, including every value of the throw oracle for the
underlying oscillator stops (the deletion happens in the finally
block); forceStopNote is idempotent; and both stopNote and
forceStopNote on a pitch with no registered voice are no-ops (the state
is returned unchanged, no exception is modelled because none can
escape). -/
theorem claim_C2_forceStop_cleanup :
    (∀ (m : PianoModel) (p : Nat) (fails : List Nat),
        (({ m with stopFails := fails } : PianoModel).forceStopNote p).activeNotes =
          removeNote m.activeNotes p) ∧
    (∀ (m : PianoModel) (p : Nat),
        (m.forceStopNote p).forceStopNote p = m.forceStopNote p) ∧
    (∀ (m : PianoModel) (p : Nat), getNote m.activeNotes p = none →
        m.stopNote p = m ∧ m.forceStopNote p = m) := by
  refine ⟨?_, ?_, ?_⟩
  · intro m p fails
    rw [forceStopNote_activeNotes]
  · intro m p
    apply forceStopNote_of_none
    rw [forceStopNote_activeNotes]
    exact getNote_removeNote_self _ _
  · intro m p h
    exact ⟨stopNote_of_none h, forceStopNote_of_none h⟩

/-- Witness for C2: on the fresh instance (empty registry) both stop
operations at pitch 60 leave the state unchanged. -/
theorem claim_C2_witness :
    PianoModel.init.stopNote 60 = PianoModel.init ∧
    PianoModel.init.forceStopNote 60 = PianoModel.init :=
  claim_C2_forceStop_cleanup.2.2 PianoModel.init 60 rfl

/-- C3 counterexample: after build; playNote 60 (voice id 10); stopNote
60 (scheduling the primary cleanup timer for voice 10); playNote 60
again (voice id 20 now registered), firing the pending primary timer —
scheduled for the RETIRED voice 10 — deletes the registry entry of the
NEWER voice 20, because the primary callback only checks that some
entry is present, not that it is the same Voice instance. -/
theorem claim_C3_counterexample :
    (getNote staleTimerTrace.activeNotes 60).map Voice.id = some 20 ∧
    (staleTimerTrace.timers.get? 0).map CleanupTimer.voiceId = some 10 ∧
    (staleTimerTrace.timers.get? 0).map CleanupTimer.kind =
      some TimerKind.primary ∧
    getNote (staleTimerTrace.fireTimer 0).activeNotes 60 = none := by
  refine ⟨?_, ?_, ?_, ?_⟩ <;> decide

/-- C3 amended: only the backup and emergency cleanup timers check that
the registry entry is still the same Voice instance they were scheduled
for (a stale backup or emergency timer never removes a newer voice);
the primary timer deletes whatever entry is present for the pitch, so a
stale primary timer can remove a newer voice. -/
theorem claim_C3_amended_timer_identity :
    (∀ (m : PianoModel) (t : CleanupTimer),
        (t.kind = TimerKind.backup ∨ t.kind = TimerKind.emergency) →
        (∀ v, getNote m.activeNotes t.midiNote = some v → v.id ≠ t.voiceId) →
        runTimer m t = m) ∧
    (∀ (m : PianoModel) (t : CleanupTimer), t.kind = TimerKind.primary →
        (runTimer m t).activeNotes = removeNote m.activeNotes t.midiNote) := by
  constructor
  · intro m t hk hv
    unfold runTimer
    rcases hk with hk | hk <;> rw [hk] <;> dsimp only <;>
      cases hg : getNote m.activeNotes t.midiNote with
    | none => rfl
    | some v => dsimp only; rw [if_neg (hv v hg)]
  · intro m t hk
    unfold runTimer
    rw [hk]
    dsimp only
    split
    · rfl
    · rename_i hcond
      have hnone : getNote m.activeNotes t.midiNote = none := by
        cases hgg : getNote m.activeNotes t.midiNote
        · rfl
        · rw [hgg] at hcond; simp at hcond
      rw [removeNote_of_getNote_none hnone]

/-- Witness for C3 amended: a pending backup timer for the retired
voice 10 does NOT delete the newer voice 20 that now occupies pitch
60. -/
theorem claim_C3_amended_witness :
    runTimer staleTimerTrace
      { kind := TimerKind.backup, midiNote := 60, voiceId := 10 } =
      staleTimerTrace := by
  apply claim_C3_amended_timer_identity.1 staleTimerTrace
    { kind := TimerKind.backup, midiNote := 60, voiceId := 10 } (Or.inl rfl)
  intro v hv
  have hid : (getNote staleTimerTrace.activeNotes 60).map Voice.id = some 20 := by
    decide
  rw [hv] at hid
  simp at hid
  rw [hid]
  decide

/-- C7: stopAllNotes(true) is by definition a fold of forceStopNote
over a snapshot of the registered note numbers taken before iteration
starts (never the live mapping), and when it returns the activeNotes
registry is empty, in every state. -/
theorem claim_C7_stopAllNotes_empties :
    ∀ (m : PianoModel),
      m.stopAllNotes true =
        (m.activeNotes.map Prod.fst).foldl
          (fun st p => st.forceStopNote p) m ∧
      (m.stopAllNotes true).activeNotes = [] :=
  fun m => ⟨rfl, stopAllNotes_true_activeNotes m⟩

/-- C8 counterexample: setDimensions(1000, 5, -3) on the fresh instance
stores length 1000 and height -3 unchanged — both far outside the
30..400 cm range the specification gives — so out-of-range dimensions
are NOT clamped to the min/max range; they are stored verbatim. -/
theorem claim_C8_counterexample :
    (PianoModel.init.setDimensions 1000 5 (-3)).dimensions =
      { length := 1000, width := 5, height := -3 } ∧
    ¬ ((PianoModel.init.setDimensions 1000 5 (-3)).dimensions.length ≤ 400) ∧
    ¬ (30 ≤ (PianoModel.init.setDimensions 1000 5 (-3)).dimensions.height) := by
  have h : (PianoModel.init.setDimensions 1000 5 (-3)).dimensions =
      { length := 1000, width := 5, height := -3 } := rfl
  refine ⟨h, ?_, ?_⟩ <;> rw [h] <;> norm_num

/-- C8 amended: setDimensions is a total function that accepts any
rational values and stores them verbatim (no clamping, no rejection, no
failure path) in every state. -/
theorem claim_C8_amended_stores_unclamped :
    ∀ (m : PianoModel) (l w h : ℚ),
      (m.setDimensions l w h).dimensions = { length := l, width := w, height := h } := by
  intro m l w h
  unfold PianoModel.setDimensions
  dsimp only
  split
  · split <;> rw [buildPiano_dimensions] <;> dsimp only <;>
      rw [stopAllNotes_dimensions]
  · rfl

/-- C4 counterexample: at the constructor-default dimensions 80 x 280 x
40 the volume factor is 112/135, not 1.0 (the reference volume is the
distinct nominal instrument 180 x 150 x 40), so the claimed
volumeFactor = 1.0 at default is false, and the master gain setDimensions
would compute at the default dimensions is 392/675, not the base gain
0.7. -/
theorem claim_C4_counterexample :
    PianoModel.init.dimensions = { length := 80, width := 280, height := 40 } ∧
    volumeFactor 80 280 40 = 112 / 135 ∧
    volumeFactor 80 280 40 ≠ 1 ∧
    min (7 / 10 * volumeFactor 80 280 40) (6 / 5) ≠ 7 / 10 := by
  refine ⟨rfl, ?_, ?_, ?_⟩
  · norm_num [volumeFactor]
  · norm_num [volumeFactor]
  · norm_num [volumeFactor]

/-- C4 amended: on a built instrument setDimensions sets the master
gain to min(0.7 * volumeFactor, 1.2) with volumeFactor =
(length * width * height) / (180 * 150 * 40); at the constructor-default
dimensions (80 x 280 x 40) the volume factor is 112/135 (about 0.83),
not 1.0, and the 0.7 master gain of a fresh instance comes from the
constructor assignment, not from the volume-factor formula. -/
theorem claim_C4_amended_master_gain :
    (∀ (m : PianoModel) (l w h : ℚ), m.isBuilt = true →
        (m.setDimensions l w h).masterGain =
          min (7 / 10 * volumeFactor l w h) (6 / 5)) ∧
    volumeFactor 80 280 40 = 112 / 135 ∧
    PianoModel.init.masterGain = 7 / 10 := by
  refine ⟨?_, by norm_num [volumeFactor], rfl⟩
  intro m l w h hb
  unfold PianoModel.setDimensions
  dsimp only
  rw [if_pos hb]
  rw [buildPiano_masterGain]
  split <;> rfl

/-- Witness for C4 amended, on the built fresh instance at the default
dimensions. -/
theorem claim_C4_witness :
    (PianoModel.init.buildPiano).isBuilt = true ∧
    ((PianoModel.init.buildPiano).setDimensions 80 280 40).masterGain =
      min (7 / 10 * volumeFactor 80 280 40) (6 / 5) :=
  ⟨rfl, claim_C4_amended_master_gain.1 _ 80 280 40 rfl⟩

/-- C5 counterexample: raising the height from 40 to 80 with the other
dimensions fixed makes the attack time STRICTLY SHORTER (0.0208 s
versus 0.0604 s) — greater height gives a faster, not slower, attack —
and at the in-range width 300 the sustain level is 1.3, above 1, so it
is not clamped to the normalized range 0..1. -/
theorem claim_C5_counterexample :
    attackTime { length := 80, width := 280, height := 80 } <
      attackTime { length := 80, width := 280, height := 40 } ∧
    sustainLevel { length := 80, width := 300, height := 40 } = 13 / 10 ∧
    ¬ sustainLevel { length := 80, width := 300, height := 40 } ≤ 1 := by
  refine ⟨?_, ?_, ?_⟩ <;> norm_num [attackTime, sustainLevel]

/-- C5 amended: attack time is DIRECTLY related to height in speed
(greater height gives a shorter or equal attack time; floor clamp at
0.001 s, and at most 0.1 s for nonnegative heights); decay time grows
strictly with height; sustain level grows strictly with width but is
NOT clamped above (it is exactly 0.1 + (width/200) * 0.8); release time
grows strictly with length with the value 0.1 + (length/200) * 0.7, at
least 0.1 s for nonnegative lengths but with no ceiling clamp. -/
theorem claim_C5_amended_envelope :
    (∀ (l w h1 h2 : ℚ), h1 ≤ h2 →
        attackTime { length := l, width := w, height := h2 } ≤
          attackTime { length := l, width := w, height := h1 }) ∧
    (∀ (l w h : ℚ),
        1 / 1000 ≤ attackTime { length := l, width := w, height := h } ∧
        (0 ≤ h → attackTime { length := l, width := w, height := h } ≤ 1 / 10)) ∧
    (∀ (l w h1 h2 : ℚ), h1 < h2 →
        decayTime { length := l, width := w, height := h1 } <
          decayTime { length := l, width := w, height := h2 }) ∧
    (∀ (l h w1 w2 : ℚ), w1 < w2 →
        sustainLevel { length := l, width := w1, height := h } <
          sustainLevel { length := l, width := w2, height := h }) ∧
    (∀ (l w h : ℚ),
        sustainLevel { length := l, width := w, height := h } =
          1 / 10 + w / 200 * (4 / 5)) ∧
    (∀ (w h l1 l2 : ℚ), l1 < l2 →
        releaseTime { length := l1, width := w, height := h } <
          releaseTime { length := l2, width := w, height := h }) ∧
    (∀ (l w h : ℚ),
        releaseTime { length := l, width := w, height := h } =
          1 / 10 + l / 200 * (7 / 10) ∧
        (0 ≤ l → 1 / 10 ≤ releaseTime { length := l, width := w, height := h })) := by
  refine ⟨?_, ?_, ?_, ?_, fun l w h => rfl, ?_, ?_⟩
  · intro l w h1 h2 hh
    unfold attackTime
    exact max_le_max le_rfl (by dsimp only; linarith)
  · intro l w h
    constructor
    · exact le_max_left _ _
    · intro hh
      unfold attackTime
      apply max_le (by norm_num)
      dsimp only
      nlinarith
  · intro l w h1 h2 hh
    unfold decayTime
    dsimp only
    linarith
  · intro l h w1 w2 hw
    unfold sustainLevel
    dsimp only
    linarith
  · intro w h l1 l2 hl
    unfold releaseTime
    dsimp only
    linarith
  · intro l w h
    refine ⟨rfl, fun hl => ?_⟩
    unfold releaseTime
    dsimp only
    nlinarith

/-- Witness for C5 amended at concrete dimensions: height raised from 40
to 80 does not lengthen the attack, and width raised from 280 to 300
strictly raises the sustain level. -/
theorem claim_C5_witness :
    ((40 : ℚ) ≤ 80 ∧
      attackTime { length := 80, width := 280, height := 80 } ≤
        attackTime { length := 80, width := 280, height := 40 }) ∧
    ((280 : ℚ) < 300 ∧
      sustainLevel { length := 80, width := 280, height := 40 } <
        sustainLevel { length := 80, width := 300, height := 40 }) :=
  ⟨⟨by norm_num, claim_C5_amended_envelope.1 80 280 40 80 (by norm_num)⟩,
   ⟨by norm_num, claim_C5_amended_envelope.2.2.2.1 80 40 280 300 (by norm_num)⟩⟩

section NotBuiltLemmas

/-- Deleting from an empty registry yields the empty registry. -/
theorem removeNote_nil (p : Nat) : removeNote [] p = [] := rfl

/-- Phase one of playNote on an absent pitch does nothing. -/
theorem playNotePhase1_of_none {m : PianoModel} {p : Nat}
    (h : getNote m.activeNotes p = none) : m.playNotePhase1 p = m := by
  unfold PianoModel.playNotePhase1
  rw [h]
  simp

/-- Each operation preserves the invariant that an unbuilt piano has an
empty registry. -/
theorem applyOp_not_built_empty (m : PianoModel) (o : Op)
    (h : m.isBuilt = false → m.activeNotes = []) :
    (m.applyOp o).isBuilt = false → (m.applyOp o).activeNotes = [] := by
  cases o with
  | play p v =>
      intro hb
      rw [PianoModel.applyOp] at hb ⊢
      rw [playNote_isBuilt] at hb
      rw [playNote_activeNotes, if_neg (by rw [hb]; simp), h hb, removeNote_nil]
  | stop p =>
      intro hb
      rw [PianoModel.applyOp] at hb ⊢
      rw [stopNote_isBuilt] at hb
      rw [stopNote_activeNotes, h hb]
  | forceStop p =>
      intro hb
      rw [PianoModel.applyOp] at hb ⊢
      rw [forceStopNote_isBuilt] at hb
      rw [forceStopNote_activeNotes, h hb, removeNote_nil]
  | stopAll b =>
      intro hb
      rw [PianoModel.applyOp] at hb ⊢
      rw [stopAllNotes_isBuilt] at hb
      cases b
      · rw [stopAllNotes_false_activeNotes, h hb]
      · exact stopAllNotes_true_activeNotes m
  | build =>
      intro hb
      rw [PianoModel.applyOp] at hb ⊢
      rw [buildPiano_isBuilt] at hb
      exact absurd hb (by simp)
  | setDims l w hh =>
      intro hb
      rw [PianoModel.applyOp] at hb ⊢
      rw [setDimensions_isBuilt] at hb
      rw [setDimensions_activeNotes, if_neg (by rw [hb]; simp), h hb]
  | setMat mat =>
      intro hb
      rw [PianoModel.applyOp] at hb ⊢
      rw [setMaterial_isBuilt] at hb
      rw [setMaterial_activeNotes, if_neg (by rw [hb]; simp), h hb]
  | fire i =>
      intro hb
      rw [PianoModel.applyOp] at hb ⊢
      rw [fireTimer_isBuilt] at hb
      rcases fireTimer_activeNotes m i with hf | ⟨p, hf⟩
      · rw [hf, h hb]
      · rw [hf, h hb, removeNote_nil]

/-- Every reachable unbuilt state has an empty registry (voices are
created only on a built piano and the built flag is never cleared). -/
theorem run_not_built_empty (ops : List Op) :
    (PianoModel.init.run ops).isBuilt = false →
    (PianoModel.init.run ops).activeNotes = [] := by
  unfold PianoModel.run
  have : ∀ (l : List Op) (m : PianoModel),
      (m.isBuilt = false → m.activeNotes = []) →
      ((l.foldl PianoModel.applyOp m).isBuilt = false →
        (l.foldl PianoModel.applyOp m).activeNotes = []) := by
    intro l
    induction l with
    | nil => intro m hm; exact hm
    | cons o l ih =>
        intro m hm
        exact ih _ (applyOp_not_built_empty m o hm)
  exact this ops PianoModel.init (fun _ => rfl)

end NotBuiltLemmas

/-- C6: in every reachable state in which the instrument is not built,
playNote returns the state unchanged — no audio node is created, no
voice is registered, the event log does not grow and nothing is thrown;
the only effect of the call in the source is a console warning. -/
theorem claim_C6_playNote_before_build :
    ∀ (ops : List Op) (p : Nat) (v : ℚ),
      (PianoModel.init.run ops).isBuilt = false →
      (PianoModel.init.run ops).playNote p v = PianoModel.init.run ops := by
  intro ops p v hb
  have he := run_not_built_empty ops hb
  rw [playNote_not_built _ _ _ hb]
  apply playNotePhase1_of_none
  rw [he]
  rfl

/-- Witness for C6 on the freshly constructed (not yet built)
instance. -/
theorem claim_C6_witness :
    PianoModel.init.isBuilt = false ∧
    PianoModel.init.playNote 60 (7 / 10) = PianoModel.init :=
  ⟨rfl, claim_C6_playNote_before_build [] 60 (7 / 10) rfl⟩

/-- C9: noteFrequency is exactly the equal-tempered mapping
440 * 2 ^ ((pitch - 69) / 12); pitch 69 maps to exactly 440 Hz, and
pitch 60 maps to 261.63 Hz within a tolerance of 0.01 Hz. -/
theorem claim_C9_equal_tempered_frequency :
    (∀ p : ℤ, noteFrequency p = 440 * (2 : ℝ) ^ (((p : ℝ) - 69) / 12)) ∧
    noteFrequency 69 = 440 ∧
    |noteFrequency 60 - 261.63| ≤ 0.01 := by
  refine ⟨fun p => rfl, ?_, ?_⟩
  · unfold noteFrequency
    have h0 : (((69 : ℤ) : ℝ) - 69) / 12 = 0 := by norm_num
    rw [h0, Real.rpow_zero, mul_one]
  · have hc0 : (0 : ℝ) < (2 : ℝ) ^ ((3 : ℝ) / 4) :=
      Real.rpow_pos_of_pos (by norm_num) _
    have hc4 : ((2 : ℝ) ^ ((3 : ℝ) / 4)) ^ (4 : ℕ) = 8 := by
      rw [← Real.rpow_natCast ((2 : ℝ) ^ ((3 : ℝ) / 4)) 4,
        ← Real.rpow_mul (by norm_num : (0 : ℝ) ≤ 2)]
      norm_num
    have hlow : (168179 : ℝ) / 100000 ≤ (2 : ℝ) ^ ((3 : ℝ) / 4) := by
      by_contra hlt
      push_neg at hlt
      have h4 : ((2 : ℝ) ^ ((3 : ℝ) / 4)) ^ (4 : ℕ) ≤
          ((168179 : ℝ) / 100000) ^ (4 : ℕ) :=
        pow_le_pow_left₀ (le_of_lt hc0) (le_of_lt hlt) 4
      rw [hc4] at h4
      norm_num at h4
    have hhigh : (2 : ℝ) ^ ((3 : ℝ) / 4) ≤ (16818 : ℝ) / 10000 := by
      by_contra hlt
      push_neg at hlt
      have h4 : ((16818 : ℝ) / 10000) ^ (4 : ℕ) ≤
          ((2 : ℝ) ^ ((3 : ℝ) / 4)) ^ (4 : ℕ) :=
        pow_le_pow_left₀ (by norm_num) (le_of_lt hlt) 4
      rw [hc4] at h4
      norm_num at h4
    have hval : noteFrequency 60 = 440 * ((2 : ℝ) ^ ((3 : ℝ) / 4))⁻¹ := by
      unfold noteFrequency
      have hexp : (((60 : ℤ) : ℝ) - 69) / 12 = -((3 : ℝ) / 4) := by norm_num
      rw [hexp, Real.rpow_neg (by norm_num : (0 : ℝ) ≤ 2)]
    rw [hval, abs_le]
    constructor
    · have hinv : ((16818 : ℝ) / 10000)⁻¹ ≤ ((2 : ℝ) ^ ((3 : ℝ) / 4))⁻¹ :=
        inv_anti₀ hc0 hhigh
      have h2 : 440 * ((16818 : ℝ) / 10000)⁻¹ ≤
          440 * ((2 : ℝ) ^ ((3 : ℝ) / 4))⁻¹ :=
        mul_le_mul_of_nonneg_left hinv (by norm_num)
      have h1 : (261.62 : ℝ) ≤ 440 * ((16818 : ℝ) / 10000)⁻¹ := by norm_num
      have : (261.62 : ℝ) ≤ 440 * ((2 : ℝ) ^ ((3 : ℝ) / 4))⁻¹ := le_trans h1 h2
      norm_num at this ⊢
      linarith
    · have hinv : ((2 : ℝ) ^ ((3 : ℝ) / 4))⁻¹ ≤ ((168179 : ℝ) / 100000)⁻¹ :=
        inv_anti₀ (by norm_num) hlow
      have h2 : 440 * ((2 : ℝ) ^ ((3 : ℝ) / 4))⁻¹ ≤
          440 * ((168179 : ℝ) / 100000)⁻¹ :=
        mul_le_mul_of_nonneg_left hinv (by norm_num)
      have h1 : 440 * ((168179 : ℝ) / 100000)⁻¹ ≤ (261.64 : ℝ) := by norm_num
      have : 440 * ((2 : ℝ) ^ ((3 : ℝ) / 4))⁻¹ ≤ (261.64 : ℝ) := le_trans h2 h1
      norm_num at this ⊢
      linarith

section PlayNoteFreshLemmas

/-- The registry keys predicate of a pitch with no entry is everywhere
false, so the assignment appends. -/
theorem putNote_of_none {r : List (Nat × Voice)} {p : Nat}
    (h : getNote r p = none) (v : Voice) : putNote r p v = r ++ [(p, v)] := by
  unfold getNote at h
  rw [Option.map_eq_none', List.find?_eq_none] at h
  unfold putNote
  rw [if_neg]
  intro hany
  rcases List.any_eq_true.mp hany with ⟨e, he, hp⟩
  exact absurd (of_decide_eq_true hp) (by simpa using h e he)

/-- Lookup after appending a binding for a previously absent pitch
finds exactly that binding. -/
theorem getNote_append_single {r : List (Nat × Voice)} {p : Nat}
    (h : getNote r p = none) (v : Voice) :
    getNote (r ++ [(p, v)]) p = some v := by
  unfold getNote at h ⊢
  rw [Option.map_eq_none'] at h
  rw [List.find?_append, h]
  simp

/-- playNote on a built piano and a fresh pitch: the whole state
transition in one equation. -/
theorem playNote_eq_of_fresh (m : PianoModel) (p : Nat) (v : ℚ)
    (hb : m.isBuilt = true) (hg : getNote m.activeNotes p = none) :
    m.playNote p v =
      { m with
        activeNotes := putNote m.activeNotes p
          (mkVoice m.material m.dimensions m.nextId)
        nextId := m.nextId + 10
        events := m.events ++
          voiceBuildEvents m.material m.dimensions v m.nextId } := by
  simp only [PianoModel.playNote]
  rw [playNotePhase1_of_none hg]
  rw [if_neg (by rw [hb]; simp)]
  rw [if_neg (by rw [hg]; simp)]

/-- The start, creation, connection and registry-entry facts of one
voice construction, for each of the four public materials. -/
theorem voiceBuildEvents_props (mat : String)
    (hmat : mat = "wood" ∨ mat = "metal" ∨ mat = "glass" ∨ mat = "plastic")
    (d : Dimensions) (vel : ℚ) (base : Nat) :
    (voiceBuildEvents mat d vel base).filter (fun e => isStartEvent e) =
      [AudioEvent.startOsc base, AudioEvent.startOsc (base + 3),
       AudioEvent.startOsc (base + 5)] ∧
    AudioEvent.startOsc (base + 7) ∉ voiceBuildEvents mat d vel base ∧
    AudioEvent.createOsc (base + 7) ∈ voiceBuildEvents mat d vel base ∧
    (mat = "plastic" →
      AudioEvent.connect (base + 7) (base + 8) ∈ voiceBuildEvents mat d vel base ∧
      AudioEvent.connect (base + 8) (base + 2) ∈ voiceBuildEvents mat d vel base) ∧
    (mkVoice mat d base).oscillator4 = none ∧
    (mkVoice mat d base).experimentalGain = none := by
  rcases hmat with h | h | h | h <;> subst h <;>
    refine ⟨?_, ?_, ?_, ?_, ?_, ?_⟩
  · simp [voiceBuildEvents, materialEvents, isStartEvent]
  · intro hmem
    simp [voiceBuildEvents, materialEvents] at hmem
  · simp [voiceBuildEvents, materialEvents]
  · intro hpl
    exact absurd hpl (by decide)
  · rfl
  · rfl
  · simp [voiceBuildEvents, materialEvents, isStartEvent]
  · intro hmem
    simp [voiceBuildEvents, materialEvents] at hmem
  · simp [voiceBuildEvents, materialEvents]
  · intro hpl
    exact absurd hpl (by decide)
  · rfl
  · rfl
  · simp [voiceBuildEvents, materialEvents, isStartEvent]
  · intro hmem
    simp [voiceBuildEvents, materialEvents] at hmem
  · simp [voiceBuildEvents, materialEvents]
  · intro hpl
    exact absurd hpl (by decide)
  · rfl
  · rfl
  · simp [voiceBuildEvents, materialEvents, isStartEvent]
  · intro hmem
    simp [voiceBuildEvents, materialEvents] at hmem
  · simp [voiceBuildEvents, materialEvents]
  · intro hpl
    constructor <;> simp [voiceBuildEvents, materialEvents]
  · rfl
  · rfl

end PlayNoteFreshLemmas

/-- C10: for each of the four materials settable through the public
interface (wood, metal, glass, plastic), playNote starts exactly the
three oscillators it registers; the fourth, sub-octave oscillator is
created in every call and, for plastic, connected through
experimentalGain into the filter, yet it is never started — its start is
gated on the material string "experimental", which none of the four is —
and the registry entry stores null for oscillator4 and
experimentalGain. -/
theorem claim_C10_sub_oscillator_never_started :
    ∀ (m : PianoModel) (p : Nat) (v : ℚ),
      m.isBuilt = true →
      getNote m.activeNotes p = none →
      (m.material = "wood" ∨ m.material = "metal" ∨
        m.material = "glass" ∨ m.material = "plastic") →
      playNoteStartsThree m p v := by
  intro m p v hb hg hm
  have hprops := voiceBuildEvents_props m.material hm m.dimensions v m.nextId
  have hfresh := playNote_eq_of_fresh m p v hb hg
  refine ⟨by rw [hfresh], hprops.1, hprops.2.1, hprops.2.2.1, hprops.2.2.2.1,
    ?_, hprops.2.2.2.2.1, hprops.2.2.2.2.2⟩
  rw [hfresh]
  dsimp only
  rw [putNote_of_none hg]
  exact getNote_append_single hg _

/-- Witness for C10 on the built fresh instance (material wood) at pitch
60. -/
theorem claim_C10_witness :
    playNoteStartsThree (PianoModel.init.buildPiano) 60 (7 / 10) :=
  claim_C10_sub_oscillator_never_started _ 60 (7 / 10) rfl rfl (Or.inl rfl)

end ImagineKeys
